import Mathlib

/-!
Shallow embedding of `change.py` (BGarber42/route53-record-set): a single-shot
orchestrator that validates configuration read from the process environment,
builds a Route 53 change batch, submits it, optionally waits for propagation,
and prints the response metadata.  Python exceptions are modelled by the
`Except Route53.Err` monad; the process environment is a partial map from
key names to string values; the remote service (boto3) is a parameter.
-/

namespace Route53

/-- Mirrors the exception classes the source raises.  `NameError` is the
spec's `MissingConfiguration`, `ValueError` its `InvalidInput`, `ClientError`
its `RemoteServiceError`, `WaiterError` its `WaitTimeoutError`, and
`KeyError` its `UnexpectedResponseShape`. -/
inductive Err where
  | NameError (msg : String)
  | ValueError (msg : String)
  | ClientError (msg : String)
  | WaiterError (msg : String)
  | KeyError (key : String)
  deriving DecidableEq

/-- The process environment: `os.environ.get`. -/
def Env : Type := String → Option String

/-- Source constant `DEFAULT_TTL = 300`. -/
def DEFAULT_TTL : Int := 300

/-- Source constant `DEFAULT_WAITER_DELAY = 10`. -/
def DEFAULT_WAITER_DELAY : Nat := 10

/-- Source constant `DEFAULT_WAITER_MAX_ATTEMPTS = 50`. -/
def DEFAULT_WAITER_MAX_ATTEMPTS : Nat := 50

/-- Source constant `SUPPORTED_RECORD_TYPES` (a Python set literal; we keep
the literal's order for the joined error message). -/
def SUPPORTED_RECORD_TYPES : List String :=
  ["SOA", "A", "TXT", "NS", "CNAME", "MX", "PTR", "SRV", "SPF", "AAAA"]

/-- Source constant `SUPPORTED_ACTIONS`. -/
def SUPPORTED_ACTIONS : List String := ["CREATE", "DELETE", "UPSERT"]

/-- Python truthiness of an `Optional[str]`: `None` and `""` are falsy. -/
def pyTruthy : Option String → Bool
  | none => false
  | some s => !(s == "")

/-- `_get_env`: fetch a variable, raising `NameError` when it is falsy
(absent or empty) and `exit_on_missing` is set. -/
def _get_env (env : Env) (varName : String) (exit_on_missing : Bool) :
    Except Err (Option String) :=
  let value := env varName
  if !(pyTruthy value) && exit_on_missing then
    .error (.NameError ("Cannot find environment variable: " ++ varName))
  else
    .ok value

/-- `_validate_record_type`: errors unless the type is in the supported set. -/
def _validate_record_type (record_type : String) : Except Err Unit :=
  if record_type ∉ SUPPORTED_RECORD_TYPES then
    .error (.ValueError ("Unsupported record type: " ++ record_type ++
      ". Supported types: " ++ String.intercalate ", " SUPPORTED_RECORD_TYPES))
  else
    .ok ()

/-- `_validate_action`: errors unless the action is in the supported set. -/
def _validate_action (action : String) : Except Err Unit :=
  if action ∉ SUPPORTED_ACTIONS then
    .error (.ValueError ("Unsupported action: " ++ action ++
      ". Supported actions: " ++ String.intercalate ", " SUPPORTED_ACTIONS))
  else
    .ok ()

/-- Digit-run accumulator for `int(s)`: ASCII digits with single underscores
allowed only between digits (Python 3 literal rule). -/
def digitsVal : List Char → Nat → Option Nat
  | [], acc => some acc
  | c :: rest, acc =>
    if c.isDigit then digitsVal rest (acc * 10 + (c.toNat - 48))
    else if c == '_' then
      match rest with
      | [] => none
      | c2 :: _ => if c2.isDigit then digitsVal rest acc else none
    else none

/-- A digit run must start with a digit and be non-empty. -/
def parseDigits (cs : List Char) : Option Nat :=
  match cs with
  | [] => none
  | c :: _ => if c.isDigit then digitsVal cs 0 else none

/-- Characters `str.strip()` / `int()` ignore at either end. -/
def isPySpace (c : Char) : Bool :=
  c == ' ' || c == '\t' || c == '\n' || c == '\r' || c == '\x0b' || c == '\x0c'

/-- Python's `int(s)` on a base-10 string: surrounding whitespace stripped,
one optional sign, then a digit run; `none` models `ValueError`. -/
def pyInt (s : String) : Option Int :=
  let cs := ((s.toList.dropWhile isPySpace).reverse.dropWhile isPySpace).reverse
  match cs with
  | '+' :: rest => (parseDigits rest).map Int.ofNat
  | '-' :: rest => (parseDigits rest).map (fun n => -(Int.ofNat n))
  | _ => (parseDigits cs).map Int.ofNat

/-- The message of Python's `ValueError` from `int()`. -/
def intErrMsg (s : String) : String :=
  "invalid literal for int() with base 10: " ++ s

/-- `_validate_ttl`: default 300 when the input is falsy; otherwise parse as
an integer and range-check against [0, 2147483647]; every `ValueError` is
re-raised wrapped in the `Invalid TTL value` message. -/
def _validate_ttl (ttl : Option String) : Except Err Int :=
  match (if pyTruthy ttl then pyInt (ttl.getD "") else some DEFAULT_TTL) with
  | none =>
    .error (.ValueError ("Invalid TTL value " ++ ttl.getD "" ++ ": " ++
      intErrMsg (ttl.getD "")))
  | some ttl_value =>
    if ttl_value < 0 || ttl_value > 2147483647 then
      .error (.ValueError ("Invalid TTL value " ++ ttl.getD "" ++
        ": TTL must be between 0 and 2147483647"))
    else
      .ok ttl_value

/-- One `{"Value": ...}` entry of `ResourceRecords`. -/
structure ResourceRecord where
  Value : String
  deriving DecidableEq

/-- The `ResourceRecordSet` dict; the source key `"Type"` is a Lean keyword,
so the field is spelled `rrType`. -/
structure RecordSetBody where
  Name : String
  rrType : String
  TTL : Int
  ResourceRecords : List ResourceRecord
  deriving DecidableEq

/-- One entry of the `Changes` list. -/
structure ChangeEntry where
  Action : String
  ResourceRecordSet : RecordSetBody
  deriving DecidableEq

/-- `self.rr_skeleton`: starts as `{}`; `Comment` and `Changes` keys are
absent (`none`) until a stage adds them. -/
structure Skeleton where
  Comment : Option String
  Changes : Option (List ChangeEntry)
  deriving DecidableEq

/-- The freshly initialized `rr_skeleton = {}`. -/
def emptySkeleton : Skeleton := { Comment := none, Changes := none }

/-- `_set_comment`: add the `Comment` key only when the (optional) comment
variable is truthy. -/
def _set_comment (env : Env) (sk : Skeleton) : Except Err Skeleton :=
  match _get_env env "INPUT_AWS_ROUTE53_RR_COMMENT" false with
  | .error e => .error e
  | .ok comment =>
    if pyTruthy comment then .ok { sk with Comment := comment }
    else .ok sk

/-- `_set_base_changes`: fetch and validate every input, then store a
one-element `Changes` list.  The match chain follows the source's statement
order exactly. -/
def _set_base_changes (env : Env) (sk : Skeleton) : Except Err Skeleton :=
  match _get_env env "INPUT_AWS_ROUTE53_RR_ACTION" true with
  | .error e => .error e
  | .ok actionOpt =>
    let action := actionOpt.getD ""
    match _validate_action action with
    | .error e => .error e
    | .ok _ =>
      match _get_env env "INPUT_AWS_ROUTE53_RR_NAME" true with
      | .error e => .error e
      | .ok nameOpt =>
        let name := nameOpt.getD ""
        match _get_env env "INPUT_AWS_ROUTE53_RR_TYPE" true with
        | .error e => .error e
        | .ok typeOpt =>
          let record_type := typeOpt.getD ""
          match _validate_record_type record_type with
          | .error e => .error e
          | .ok _ =>
            match _get_env env "INPUT_AWS_ROUTE53_RR_TTL" false with
            | .error e => .error e
            | .ok ttl_str =>
              match _validate_ttl ttl_str with
              | .error e => .error e
              | .ok ttl =>
                match _get_env env "INPUT_AWS_ROUTE53_RR_VALUE" true with
                | .error e => .error e
                | .ok valueOpt =>
                  let value := valueOpt.getD ""
                  .ok { sk with Changes := some [{
                    Action := action,
                    ResourceRecordSet := {
                      Name := name,
                      rrType := record_type,
                      TTL := ttl,
                      ResourceRecords := [{ Value := value }] } }] }

/-- `_build_record_set`: comment first, then the base changes, on the
initially empty skeleton. -/
def _build_record_set (env : Env) : Except Err Skeleton :=
  match _set_comment env emptySkeleton with
  | .error e => .error e
  | .ok sk => _set_base_changes env sk

/-- The nested `ChangeInfo` dict of the raw boto3 response; a `none` field
models an absent key. -/
structure RawChangeInfo where
  Id : Option String
  deriving DecidableEq

/-- The raw boto3 response dict; `ResponseMetadata` is modelled as a flat
string map. -/
structure RawResponse where
  ChangeInfo : Option RawChangeInfo
  ResponseMetadata : Option (List (String × String))
  deriving DecidableEq

/-- Observable calls against the remote service made during one run. -/
inductive Event where
  | SubmitCall
  | WaiterCall
  deriving DecidableEq

/-- `_change_record_set`: fetch the (required) hosted zone id, then perform
the one mutating remote call; its outcome `submitRes` is a parameter of the
model.  The event list records whether the call happened. -/
def _change_record_set (env : Env) (submitRes : Except Err RawResponse)
    (record_set : Skeleton) : Except Err RawResponse × List Event :=
  match _get_env env "INPUT_AWS_ROUTE53_HOSTED_ZONE_ID" true with
  | .error e => (.error e, [])
  | .ok _ => (submitRes, [Event.SubmitCall])

/-- Remote change status as polled by the waiter. -/
inductive Status where
  | PENDING
  | INSYNC
  deriving DecidableEq

/-- Modelled from the spec: the remote waiter's poll loop lives in the
botocore library, not in this repository's source; the spec describes it as
polling the change-status lookup at a fixed delay for at most `maxAttempts`
attempts, failing once the budget is exhausted.  `statusAt i` is the status
the remote service reports to the i-th poll (0-based); on success the result
is (number of polls made, time units slept before the successful poll). -/
def waiterPoll (statusAt : Nat → Status) (delay : Nat) :
    Nat → Nat → Except Err (Nat × Nat)
  | _, 0 => .error (.WaiterError "Max attempts exceeded")
  | attempt, remaining + 1 =>
    match statusAt attempt with
    | .INSYNC => .ok (attempt + 1, delay * attempt)
    | .PENDING => waiterPoll statusAt delay (attempt + 1) remaining

/-- Modelled from the spec: entry point of the poll loop. -/
def waiter_wait (statusAt : Nat → Status) (delay maxAttempts : Nat) :
    Except Err (Nat × Nat) :=
  waiterPoll statusAt delay 0 maxAttempts

/-- ASCII lower-casing of one character, as `str.lower()` acts on the
letters occurring in the truthy wait values. -/
def asciiLower (c : Char) : Char :=
  if 'A' ≤ c && c ≤ 'Z' then Char.ofNat (c.toNat + 32) else c

/-- `s.lower()` over the string's characters. -/
def pyLower (s : String) : String := String.mk (s.toList.map asciiLower)

/-- The `('true', '1', 'yes')` membership test guarding the waiter. -/
def waitRequested : Option String → Bool
  | none => false
  | some s => !(s == "") && (["true", "1", "yes"].contains (pyLower s))

/-- `_wait`: runs the waiter (with the source's `WaiterConfig` constants)
only when the wait variable is truthy and case-insensitively one of
true/1/yes; otherwise does nothing. -/
def _wait (env : Env) (statusAt : Nat → Status) (request_id : String) :
    Except Err Unit × List Event :=
  match _get_env env "INPUT_AWS_ROUTE53_WAIT" false with
  | .error e => (.error e, [])
  | .ok wait_str =>
    if waitRequested wait_str then
      match request_id,
        waiter_wait statusAt DEFAULT_WAITER_DELAY DEFAULT_WAITER_MAX_ATTEMPTS with
      | _, .error e => (.error e, [Event.WaiterCall])
      | _, .ok _ => (.ok (), [Event.WaiterCall])
    else
      (.ok (), [])

/-- `_obtain_request_id`: `result["ChangeInfo"]["Id"]`; a missing key raises
`KeyError` naming it. -/
def _obtain_request_id (result : RawResponse) : Except Err String :=
  match result.ChangeInfo with
  | none => .error (.KeyError "ChangeInfo")
  | some ci =>
    match ci.Id with
    | none => .error (.KeyError "Id")
    | some i => .ok i

/-- `json.dumps` on the flat metadata map (braces written escaped). -/
def json_dumps (md : List (String × String)) : String :=
  "\x7b\n" ++ String.intercalate ",\n"
    (md.map (fun kv => "    \"" ++ kv.1 ++ "\": \"" ++ kv.2 ++ "\"")) ++
  "\n\x7d"

/-- `_obtain_marshalled_result`: `json.dumps(result["ResponseMetadata"])`. -/
def _obtain_marshalled_result (result : RawResponse) : Except Err String :=
  match result.ResponseMetadata with
  | none => .error (.KeyError "ResponseMetadata")
  | some md => .ok (json_dumps md)

/-- `change`: the orchestrator.  Any raised error is caught by the outer
`except` and converted into process exit status 1; a full run exits 0.  The
result pairs the exit status with the trace of remote calls.  `submitRes`
and `statusAt` parameterize the remote service's behaviour; `_connect` is
pure I/O and is elided. -/
def change (env : Env) (submitRes : Except Err RawResponse)
    (statusAt : Nat → Status) : Nat × List Event :=
  match _build_record_set env with
  | .error _ => (1, [])
  | .ok record_set =>
    match _change_record_set env submitRes record_set with
    | (.error _, tr1) => (1, tr1)
    | (.ok result, tr1) =>
      match _obtain_request_id result with
      | .error _ => (1, tr1)
      | .ok request_id =>
        match _wait env statusAt request_id with
        | (.error _, tr2) => (1, tr1 ++ tr2)
        | (.ok _, tr2) =>
          match _obtain_marshalled_result result with
          | .error _ => (1, tr1 ++ tr2)
          | .ok _ => (0, tr1 ++ tr2)

/-- On the empty string the integer parser fails. -/
theorem pyInt_empty : pyInt "" = none := rfl

/-- A non-empty string is truthy. -/
theorem pyTruthy_some_of_ne (s : String) (h : s ≠ "") :
    pyTruthy (some s) = true := by
  simp [pyTruthy, h]

/-- C1: a TTL string parsing to an integer in [0, 2147483647] validates to
that integer unchanged; an absent or empty TTL validates to the default 300;
an unparsable string, and a parsed integer outside the range, both fail with
the `InvalidInput` kind (`ValueError`). -/
theorem C1_validate_ttl (s : String) :
    (∀ n : Int, pyInt s = some n → 0 ≤ n → n ≤ 2147483647 →
      _validate_ttl (some s) = .ok n)
    ∧ (_validate_ttl none = .ok 300 ∧ _validate_ttl (some "") = .ok 300)
    ∧ (s ≠ "" → pyInt s = none →
      ∃ m, _validate_ttl (some s) = .error (.ValueError m))
    ∧ (∀ n : Int, pyInt s = some n → (n < 0 ∨ 2147483647 < n) →
      ∃ m, _validate_ttl (some s) = .error (.ValueError m)) := by
  refine ⟨?_, ⟨rfl, rfl⟩, ?_, ?_⟩
  · intro n hp h0 h1
    have hs : s ≠ "" := by
      intro hse
      rw [hse, pyInt_empty] at hp
      exact Option.noConfusion hp
    have hcond : (decide (n < 0) || decide (n > 2147483647)) = false := by
      simp only [Bool.or_eq_false_iff, decide_eq_false_iff_not, not_lt,
        gt_iff_lt]
      exact ⟨h0, h1⟩
    simp [_validate_ttl, pyTruthy_some_of_ne s hs, hp, hcond]
  · intro hs hp
    simp [_validate_ttl, pyTruthy_some_of_ne s hs, hp]
  · intro n hp hout
    have hs : s ≠ "" := by
      intro hse
      rw [hse, pyInt_empty] at hp
      exact Option.noConfusion hp
    have hcond : (decide (n < 0) || decide (n > 2147483647)) = true := by
      rcases hout with h | h
      · simp [h]
      · simp [gt_iff_lt, h]
    simp [_validate_ttl, pyTruthy_some_of_ne s hs, hp, hcond]

/-- C1 witness: TTL "500" is returned unchanged, absent TTL gives 300. -/
theorem C1_validate_ttl_witness :
    _validate_ttl (some "500") = .ok 500 ∧ _validate_ttl none = .ok 300 :=
  ⟨(C1_validate_ttl "500").1 500 rfl (by decide) (by decide),
    (C1_validate_ttl "500").2.1.1⟩

/-- C2: the action validator succeeds exactly on CREATE/DELETE/UPSERT and
the record-type validator exactly on the fixed supported set; any other
input fails with the `InvalidInput` kind (`ValueError`) whose message names
the offending value and the full allowed set. -/
theorem C2_validators (s : String) :
    (_validate_action s = .ok () ↔ s ∈ SUPPORTED_ACTIONS)
    ∧ (_validate_record_type s = .ok () ↔ s ∈ SUPPORTED_RECORD_TYPES)
    ∧ (s ∉ SUPPORTED_ACTIONS →
        _validate_action s = .error (.ValueError
          ("Unsupported action: " ++ s ++ ". Supported actions: " ++
            String.intercalate ", " SUPPORTED_ACTIONS)))
    ∧ (s ∉ SUPPORTED_RECORD_TYPES →
        _validate_record_type s = .error (.ValueError
          ("Unsupported record type: " ++ s ++ ". Supported types: " ++
            String.intercalate ", " SUPPORTED_RECORD_TYPES))) := by
  refine ⟨?_, ?_, ?_, ?_⟩
  · by_cases h : s ∈ SUPPORTED_ACTIONS <;> simp [_validate_action, h]
  · by_cases h : s ∈ SUPPORTED_RECORD_TYPES <;>
      simp [_validate_record_type, h]
  · intro h
    simp [_validate_action, h]
  · intro h
    simp [_validate_record_type, h]

/-- C2 witness: the rejection of action "FROB" carries the exact message. -/
theorem C2_validators_witness :
    _validate_action "FROB" = .error (.ValueError
      "Unsupported action: FROB. Supported actions: CREATE, DELETE, UPSERT") :=
  (C2_validators "FROB").2.2.1 (by decide)

/-- `_set_comment` in closed form: the `_get_env` lookup with
`exit_on_missing = False` never raises. -/
theorem set_comment_eq (env : Env) (sk : Skeleton) :
    _set_comment env sk =
      if pyTruthy (env "INPUT_AWS_ROUTE53_RR_COMMENT") then
        .ok { sk with Comment := env "INPUT_AWS_ROUTE53_RR_COMMENT" }
      else .ok sk := by
  simp [_set_comment, _get_env]

/-- Every successful `_set_base_changes` keeps the comment field and stores
a one-element changes list. -/
theorem set_base_changes_ok_shape (env : Env) (sk0 sk : Skeleton)
    (h : _set_base_changes env sk0 = .ok sk) :
    sk.Comment = sk0.Comment ∧ ∃ c, sk.Changes = some [c] := by
  unfold _set_base_changes at h
  repeat' (first | (split at h) | simp_all)
  subst h
  exact ⟨rfl, ⟨_, rfl⟩⟩

/-- Configuration of the C3 scenario: valid UPSERT of an A record with the
TTL and comment keys absent. -/
def env3 : Env := fun k =>
  if k = "INPUT_AWS_ROUTE53_RR_ACTION" then some "UPSERT"
  else if k = "INPUT_AWS_ROUTE53_RR_NAME" then some "example.com"
  else if k = "INPUT_AWS_ROUTE53_RR_TYPE" then some "A"
  else if k = "INPUT_AWS_ROUTE53_RR_VALUE" then some "1.2.3.4"
  else none

/-- The batch the builder produces from `env3`. -/
def skeleton3 : Skeleton :=
  { Comment := none,
    Changes := some [{
      Action := "UPSERT",
      ResourceRecordSet := {
        Name := "example.com", rrType := "A", TTL := 300,
        ResourceRecords := [{ Value := "1.2.3.4" }] } }] }

/-- C3: every successfully built batch holds exactly one change entry, and
the concrete valid configuration (UPSERT example.com A 1.2.3.4, TTL absent)
builds the batch whose single entry has TTL 300. -/
theorem C3_single_change :
    (∀ (env : Env) (sk : Skeleton), _build_record_set env = .ok sk →
      ∃ c, sk.Changes = some [c])
    ∧ _build_record_set env3 = .ok skeleton3 := by
  constructor
  · intro env sk h
    unfold _build_record_set at h
    split at h
    · exact Except.noConfusion h
    · exact (set_base_changes_ok_shape env _ sk h).2
  · rfl

/-- C3 witness: the batch built from `env3` has exactly one change entry. -/
theorem C3_single_change_witness : ∃ c, skeleton3.Changes = some [c] :=
  C3_single_change.1 env3 skeleton3 C3_single_change.2

/-- C4: when the comment key is absent from the configuration, the built
batch carries no Comment field at all. -/
theorem C4_comment_omitted (env : Env)
    (h : env "INPUT_AWS_ROUTE53_RR_COMMENT" = none) :
    ∀ sk, _build_record_set env = .ok sk → sk.Comment = none := by
  intro sk hb
  unfold _build_record_set at hb
  rw [set_comment_eq, h] at hb
  simp only [pyTruthy, Bool.false_eq_true, if_false] at hb
  exact (set_base_changes_ok_shape env emptySkeleton sk hb).1

/-- C4 witness: the comment key is absent from `env3` and the built batch
has no comment. -/
theorem C4_comment_omitted_witness : skeleton3.Comment = none :=
  C4_comment_omitted env3 rfl skeleton3 rfl

/-- The submitter either raises the missing-zone error before calling the
remote service, or performs exactly the one submit call. -/
theorem change_record_set_cases (env : Env) (r : Except Err RawResponse)
    (sk : Skeleton) :
    _change_record_set env r sk = (r, [Event.SubmitCall]) ∨
    ∃ e, _change_record_set env r sk = (.error e, []) := by
  unfold _change_record_set
  split
  · exact Or.inr ⟨_, rfl⟩
  · exact Or.inl rfl

/-- C5: whenever submission to the remote service fails, the completion
waiter is never invoked — the run's trace contains no waiter call. -/
theorem C5_no_wait_after_submit_failure (env : Env) (e : Err)
    (statusAt : Nat → Status) :
    Event.WaiterCall ∉ (change env (.error e) statusAt).2 := by
  unfold change
  split
  · simp
  · rcases change_record_set_cases env (.error e) _ with hc | ⟨e2, hc⟩ <;>
      rw [hc] <;> simp

/-- C5 witness: a concrete rejected submission makes no waiter call. -/
theorem C5_no_wait_after_submit_failure_witness :
    Event.WaiterCall ∉
      (change env3 (.error (.ClientError "AccessDenied"))
        (fun _ => Status.PENDING)).2 :=
  C5_no_wait_after_submit_failure env3 (.ClientError "AccessDenied")
    (fun _ => Status.PENDING)

/-- If every poll inside the window reports a non-terminal status, the poll
loop exhausts its budget and times out. -/
theorem waiterPoll_timeout (statusAt : Nat → Status) (delay : Nat)
    (remaining : Nat) :
    ∀ attempt, (∀ i, i < remaining → statusAt (attempt + i) ≠ Status.INSYNC) →
    waiterPoll statusAt delay attempt remaining =
      .error (.WaiterError "Max attempts exceeded") := by
  induction remaining with
  | zero => intro attempt _; rfl
  | succ rem ih =>
    intro attempt h
    unfold waiterPoll
    cases hs : statusAt attempt with
    | INSYNC => exact absurd hs (by simpa using h 0 (Nat.succ_pos rem))
    | PENDING =>
      exact ih (attempt + 1) (fun i hi => by
        have h2 := h (i + 1) (Nat.succ_lt_succ hi)
        have he : attempt + 1 + i = attempt + (i + 1) := by omega
        rw [he]
        exact h2)

/-- A successful poll loop run makes between `attempt + 1` and
`attempt + remaining` polls, sleeping `delay` units between consecutive
polls. -/
theorem waiterPoll_ok_bounds (statusAt : Nat → Status) (delay : Nat)
    (remaining : Nat) :
    ∀ attempt polls elapsed,
    waiterPoll statusAt delay attempt remaining = .ok (polls, elapsed) →
    attempt < polls ∧ polls ≤ attempt + remaining ∧
      elapsed = delay * (polls - 1) := by
  induction remaining with
  | zero =>
    intro attempt polls elapsed h
    exact absurd h (by simp [waiterPoll])
  | succ rem ih =>
    intro attempt polls elapsed h
    unfold waiterPoll at h
    cases hs : statusAt attempt with
    | INSYNC =>
      rw [hs] at h
      simp only [Except.ok.injEq, Prod.mk.injEq] at h
      obtain ⟨h1, h2⟩ := h
      subst h1
      subst h2
      exact ⟨Nat.lt_succ_self _, by omega, by simp⟩
    | PENDING =>
      rw [hs] at h
      have hb := ih (attempt + 1) polls elapsed h
      exact ⟨by omega, by omega, hb.2.2⟩

/-- C6: with wait requested, the waiter is run with the source's fixed
configuration (delay 10, at most 50 attempts); if no poll within the budget
observes the terminal INSYNC status it fails with the `WaitTimeoutError`
kind (`WaiterError`), which is distinct from the submission-failure kind
(`ClientError`); a successful run makes at most 50 polls, with 10 time-units
slept between consecutive polls. -/
theorem C6_waiter_budget (statusAt : Nat → Status) (env : Env) (id : String) :
    ((∀ i, i < DEFAULT_WAITER_MAX_ATTEMPTS → statusAt i ≠ Status.INSYNC) →
      waiter_wait statusAt DEFAULT_WAITER_DELAY DEFAULT_WAITER_MAX_ATTEMPTS =
        .error (.WaiterError "Max attempts exceeded")
      ∧ (waitRequested (env "INPUT_AWS_ROUTE53_WAIT") = true →
          _wait env statusAt id =
            (.error (.WaiterError "Max attempts exceeded"),
              [Event.WaiterCall])))
    ∧ (∀ polls elapsed,
        waiter_wait statusAt DEFAULT_WAITER_DELAY DEFAULT_WAITER_MAX_ATTEMPTS
          = .ok (polls, elapsed) →
        polls ≤ DEFAULT_WAITER_MAX_ATTEMPTS
        ∧ elapsed = DEFAULT_WAITER_DELAY * (polls - 1))
    ∧ (∀ m m2, Err.WaiterError m ≠ Err.ClientError m2) := by
  refine ⟨?_, ?_, ?_⟩
  · intro h
    have ht : waiter_wait statusAt DEFAULT_WAITER_DELAY
        DEFAULT_WAITER_MAX_ATTEMPTS =
        .error (.WaiterError "Max attempts exceeded") :=
      waiterPoll_timeout statusAt DEFAULT_WAITER_DELAY
        DEFAULT_WAITER_MAX_ATTEMPTS 0 (fun i hi => by simpa using h i hi)
    refine ⟨ht, fun hreq => ?_⟩
    simp [_wait, _get_env, hreq, ht]
  · intro polls elapsed h
    have hb := waiterPoll_ok_bounds statusAt DEFAULT_WAITER_DELAY
      DEFAULT_WAITER_MAX_ATTEMPTS 0 polls elapsed h
    exact ⟨by omega, hb.2.2⟩
  · intro m m2 hc
    exact Err.noConfusion hc

/-- Configuration that requests the blocking wait. -/
def env6 : Env := fun k =>
  if k = "INPUT_AWS_ROUTE53_WAIT" then some "true" else none

/-- C6 witness: under an always-PENDING remote the waiter times out with the
`WaiterError` kind, and a remote that turns INSYNC on the fourth poll stays
within budget with 30 time-units slept. -/
theorem C6_waiter_budget_witness :
    _wait env6 (fun _ => Status.PENDING) "cid" =
      (.error (.WaiterError "Max attempts exceeded"), [Event.WaiterCall])
    ∧ (4 ≤ DEFAULT_WAITER_MAX_ATTEMPTS ∧ 30 = DEFAULT_WAITER_DELAY * (4 - 1)) := by
  have h1 := (C6_waiter_budget (fun _ => Status.PENDING) env6 "cid").1
    (fun i _ => by simp)
  have h2 := (C6_waiter_budget (fun i => if i < 3 then Status.PENDING
    else Status.INSYNC) env6 "cid").2.1 4 30 (by rfl)
  exact ⟨h1.2 (by decide), h2⟩

/-- When the wait flag is not an affirmative value, `_wait` is a no-op. -/
theorem wait_not_requested (env : Env) (statusAt : Nat → Status) (id : String)
    (h : waitRequested (env "INPUT_AWS_ROUTE53_WAIT") = false) :
    _wait env statusAt id = (.ok (), []) := by
  simp [_wait, _get_env, h]

/-- C7: with the wait flag absent or not case-insensitively true/1/yes, the
waiter returns immediately with an empty trace, and a successful submission
alone completes the run with exit status 0 and no waiter call. -/
theorem C7_no_wait_flag (env : Env) (ci : String)
    (md : List (String × String)) (statusAt : Nat → Status)
    (hwait : waitRequested (env "INPUT_AWS_ROUTE53_WAIT") = false)
    (hzone : pyTruthy (env "INPUT_AWS_ROUTE53_HOSTED_ZONE_ID") = true)
    (hbuild : ∃ sk, _build_record_set env = .ok sk) :
    (∀ id, _wait env statusAt id = (.ok (), []))
    ∧ change env
        (.ok { ChangeInfo := some { Id := some ci },
               ResponseMetadata := some md })
        statusAt = (0, [Event.SubmitCall]) := by
  obtain ⟨sk, hsk⟩ := hbuild
  refine ⟨fun id => wait_not_requested env statusAt id hwait, ?_⟩
  simp [change, hsk, _change_record_set, _get_env, hzone,
    wait_not_requested env statusAt ci hwait, _obtain_request_id,
    _obtain_marshalled_result]

/-- Configuration of the C7 scenario: the valid C3 inputs plus a hosted
zone id, with the wait flag absent. -/
def env7 : Env := fun k =>
  if k = "INPUT_AWS_ROUTE53_HOSTED_ZONE_ID" then some "Z123" else env3 k

/-- C7 witness: under `env7` submission success alone exits 0 with only the
submit call in the trace. -/
theorem C7_no_wait_flag_witness :
    _wait env7 (fun _ => Status.PENDING) "cid" = (.ok (), [])
    ∧ change env7
        (.ok { ChangeInfo := some { Id := some "cid" },
               ResponseMetadata := some [("HTTPStatusCode", "200")] })
        (fun _ => Status.PENDING) = (0, [Event.SubmitCall]) := by
  have h := C7_no_wait_flag env7 "cid" [("HTTPStatusCode", "200")]
    (fun _ => Status.PENDING) rfl rfl ⟨skeleton3, rfl⟩
  exact ⟨h.1 "cid", h.2⟩

/-- C8: a raw response with the change-id path or the metadata key missing
makes extraction fail with the `UnexpectedResponseShape` kind (`KeyError`)
naming the missing key; a successful extraction only ever returns the value
actually present (no default is substituted); and a response without
`ChangeInfo` makes the whole run exit 1. -/
theorem C8_response_shape (r : RawResponse) :
    (r.ChangeInfo = none →
      _obtain_request_id r = .error (.KeyError "ChangeInfo"))
    ∧ (∀ ci, r.ChangeInfo = some ci → ci.Id = none →
        _obtain_request_id r = .error (.KeyError "Id"))
    ∧ (r.ResponseMetadata = none →
        _obtain_marshalled_result r = .error (.KeyError "ResponseMetadata"))
    ∧ (∀ i, _obtain_request_id r = .ok i →
        ∃ ci, r.ChangeInfo = some ci ∧ ci.Id = some i)
    ∧ (∀ (env : Env) (statusAt : Nat → Status), r.ChangeInfo = none →
        (change env (.ok r) statusAt).1 = 1) := by
  refine ⟨?_, ?_, ?_, ?_, ?_⟩
  · intro h
    simp [_obtain_request_id, h]
  · intro ci hci hid
    simp [_obtain_request_id, hci, hid]
  · intro h
    simp [_obtain_marshalled_result, h]
  · intro i h
    unfold _obtain_request_id at h
    repeat' split at h
    · exact Except.noConfusion h
    · exact Except.noConfusion h
    · rename_i x ci h1 y id h2
      exact ⟨ci, h1, by rw [h2]; exact congrArg some (Except.ok.inj h)⟩
  · intro env statusAt hci
    unfold change
    split
    · rfl
    · rcases change_record_set_cases env (.ok r) _ with hc | ⟨e2, hc⟩ <;>
        rw [hc] <;> simp [_obtain_request_id, hci]

/-- A response missing both expected fields. -/
def rBad : RawResponse := { ChangeInfo := none, ResponseMetadata := none }

/-- C8 witness: the concrete shapeless response fails extraction and makes
the run exit 1. -/
theorem C8_response_shape_witness :
    _obtain_request_id rBad = .error (.KeyError "ChangeInfo")
    ∧ _obtain_marshalled_result rBad = .error (.KeyError "ResponseMetadata")
    ∧ (change env7 (.ok rBad) (fun _ => Status.PENDING)).1 = 1 := by
  have h := C8_response_shape rBad
  exact ⟨h.1 rfl, h.2.2.1 rfl, h.2.2.2.2 env7 (fun _ => Status.PENDING) rfl⟩

/-- An absent value is falsy. -/
theorem pyTruthy_none : pyTruthy none = false := rfl

/-- An empty value is falsy. -/
theorem pyTruthy_some_empty : pyTruthy (some "") = false := rfl

/-- The comment stage never raises, so building reduces to
`_set_base_changes` on some starting skeleton. -/
theorem build_eq_base (env : Env) :
    ∃ sk0, _build_record_set env = _set_base_changes env sk0 := by
  by_cases hp : pyTruthy (env "INPUT_AWS_ROUTE53_RR_COMMENT") = true
  · refine ⟨{ emptySkeleton with Comment := env "INPUT_AWS_ROUTE53_RR_COMMENT" }, ?_⟩
    unfold _build_record_set
    rw [set_comment_eq, if_pos hp]
  · refine ⟨emptySkeleton, ?_⟩
    unfold _build_record_set
    rw [set_comment_eq, if_neg hp]

/-- C9 (amended): an absent required key makes the pipeline fail with the
`MissingConfiguration` kind (`NameError`) naming that key, provided every
value processed before it in source order (action, name, type, TTL, value,
hosted-zone id) is itself acceptable; that kind is distinct from the
`InvalidInput` kind (`ValueError`). -/
theorem C9_missing_required (env : Env) :
    (env "INPUT_AWS_ROUTE53_RR_ACTION" = none →
      _build_record_set env = .error (.NameError
        "Cannot find environment variable: INPUT_AWS_ROUTE53_RR_ACTION"))
    ∧ (pyTruthy (env "INPUT_AWS_ROUTE53_RR_ACTION") = true →
       (env "INPUT_AWS_ROUTE53_RR_ACTION").getD "" ∈ SUPPORTED_ACTIONS →
       env "INPUT_AWS_ROUTE53_RR_NAME" = none →
      _build_record_set env = .error (.NameError
        "Cannot find environment variable: INPUT_AWS_ROUTE53_RR_NAME"))
    ∧ (pyTruthy (env "INPUT_AWS_ROUTE53_RR_ACTION") = true →
       (env "INPUT_AWS_ROUTE53_RR_ACTION").getD "" ∈ SUPPORTED_ACTIONS →
       pyTruthy (env "INPUT_AWS_ROUTE53_RR_NAME") = true →
       env "INPUT_AWS_ROUTE53_RR_TYPE" = none →
      _build_record_set env = .error (.NameError
        "Cannot find environment variable: INPUT_AWS_ROUTE53_RR_TYPE"))
    ∧ (pyTruthy (env "INPUT_AWS_ROUTE53_RR_ACTION") = true →
       (env "INPUT_AWS_ROUTE53_RR_ACTION").getD "" ∈ SUPPORTED_ACTIONS →
       pyTruthy (env "INPUT_AWS_ROUTE53_RR_NAME") = true →
       pyTruthy (env "INPUT_AWS_ROUTE53_RR_TYPE") = true →
       (env "INPUT_AWS_ROUTE53_RR_TYPE").getD "" ∈ SUPPORTED_RECORD_TYPES →
       (∃ t, _validate_ttl (env "INPUT_AWS_ROUTE53_RR_TTL") = .ok t) →
       env "INPUT_AWS_ROUTE53_RR_VALUE" = none →
      _build_record_set env = .error (.NameError
        "Cannot find environment variable: INPUT_AWS_ROUTE53_RR_VALUE"))
    ∧ (∀ (submitRes : Except Err RawResponse) (sk : Skeleton),
       env "INPUT_AWS_ROUTE53_HOSTED_ZONE_ID" = none →
      _change_record_set env submitRes sk = (.error (.NameError
        "Cannot find environment variable: INPUT_AWS_ROUTE53_HOSTED_ZONE_ID"),
        []))
    ∧ (∀ m m2, Err.NameError m ≠ Err.ValueError m2) := by
  refine ⟨?_, ?_, ?_, ?_, ?_, ?_⟩
  · intro h
    obtain ⟨sk0, hb⟩ := build_eq_base env
    rw [hb]
    unfold _set_base_changes
    simp [_get_env, h, pyTruthy]
  · intro h1 h2 h3
    obtain ⟨sk0, hb⟩ := build_eq_base env
    rw [hb]
    unfold _set_base_changes
    simp [_get_env, _validate_action, h1, h2, h3, pyTruthy_none, pyTruthy_some_empty]
  · intro h1 h2 h3 h4
    obtain ⟨sk0, hb⟩ := build_eq_base env
    rw [hb]
    unfold _set_base_changes
    simp [_get_env, _validate_action, h1, h2, h3, h4, pyTruthy_none, pyTruthy_some_empty]
  · intro h1 h2 h3 h4 h5 h6 h7
    obtain ⟨t, ht⟩ := h6
    obtain ⟨sk0, hb⟩ := build_eq_base env
    rw [hb]
    unfold _set_base_changes
    simp [_get_env, _validate_action, _validate_record_type,
      h1, h2, h3, h4, h5, ht, h7, pyTruthy_none, pyTruthy_some_empty]
  · intro submitRes sk h
    unfold _change_record_set
    simp [_get_env, h, pyTruthy]
  · intro m m2 hc
    exact Err.noConfusion hc

/-- Configuration with an invalid present action and the required name key
absent: the first fault hit in processing order is the invalid action. -/
def envC9 : Env := fun k =>
  if k = "INPUT_AWS_ROUTE53_RR_ACTION" then some "FROB" else none

/-- C9 counterexample: a required key (the name) is absent, yet the
pipeline fails with the `InvalidInput` kind (`ValueError`) for the invalid
action processed first — not with `MissingConfiguration`. -/
theorem C9_missing_required_counterexample :
    envC9 "INPUT_AWS_ROUTE53_RR_NAME" = none
    ∧ _build_record_set envC9 = .error (.ValueError
        "Unsupported action: FROB. Supported actions: CREATE, DELETE, UPSERT") :=
  ⟨rfl, rfl⟩

/-- C9 witness: with every key absent the pipeline reports the missing
action. -/
theorem C9_missing_required_witness :
    _build_record_set (fun _ => none) = .error (.NameError
      "Cannot find environment variable: INPUT_AWS_ROUTE53_RR_ACTION") :=
  (C9_missing_required (fun _ => none)).1 rfl

/-- C10 (amended): a required key whose value is present but empty is
treated exactly like an absent key — the pipeline fails with the
missing-configuration kind (`NameError`) and the empty string is never
handed to a validator — provided every value processed before it in source
order is itself acceptable. -/
theorem C10_empty_required (env : Env) :
    (env "INPUT_AWS_ROUTE53_RR_ACTION" = some "" →
      _build_record_set env = .error (.NameError
        "Cannot find environment variable: INPUT_AWS_ROUTE53_RR_ACTION"))
    ∧ (pyTruthy (env "INPUT_AWS_ROUTE53_RR_ACTION") = true →
       (env "INPUT_AWS_ROUTE53_RR_ACTION").getD "" ∈ SUPPORTED_ACTIONS →
       env "INPUT_AWS_ROUTE53_RR_NAME" = some "" →
      _build_record_set env = .error (.NameError
        "Cannot find environment variable: INPUT_AWS_ROUTE53_RR_NAME"))
    ∧ (pyTruthy (env "INPUT_AWS_ROUTE53_RR_ACTION") = true →
       (env "INPUT_AWS_ROUTE53_RR_ACTION").getD "" ∈ SUPPORTED_ACTIONS →
       pyTruthy (env "INPUT_AWS_ROUTE53_RR_NAME") = true →
       env "INPUT_AWS_ROUTE53_RR_TYPE" = some "" →
      _build_record_set env = .error (.NameError
        "Cannot find environment variable: INPUT_AWS_ROUTE53_RR_TYPE"))
    ∧ (pyTruthy (env "INPUT_AWS_ROUTE53_RR_ACTION") = true →
       (env "INPUT_AWS_ROUTE53_RR_ACTION").getD "" ∈ SUPPORTED_ACTIONS →
       pyTruthy (env "INPUT_AWS_ROUTE53_RR_NAME") = true →
       pyTruthy (env "INPUT_AWS_ROUTE53_RR_TYPE") = true →
       (env "INPUT_AWS_ROUTE53_RR_TYPE").getD "" ∈ SUPPORTED_RECORD_TYPES →
       (∃ t, _validate_ttl (env "INPUT_AWS_ROUTE53_RR_TTL") = .ok t) →
       env "INPUT_AWS_ROUTE53_RR_VALUE" = some "" →
      _build_record_set env = .error (.NameError
        "Cannot find environment variable: INPUT_AWS_ROUTE53_RR_VALUE"))
    ∧ (∀ (submitRes : Except Err RawResponse) (sk : Skeleton),
       env "INPUT_AWS_ROUTE53_HOSTED_ZONE_ID" = some "" →
      _change_record_set env submitRes sk = (.error (.NameError
        "Cannot find environment variable: INPUT_AWS_ROUTE53_HOSTED_ZONE_ID"),
        []))
    ∧ (∀ m m2, Err.NameError m ≠ Err.ValueError m2) := by
  refine ⟨?_, ?_, ?_, ?_, ?_, ?_⟩
  · intro h
    obtain ⟨sk0, hb⟩ := build_eq_base env
    rw [hb]
    unfold _set_base_changes
    simp [_get_env, h, pyTruthy]
  · intro h1 h2 h3
    obtain ⟨sk0, hb⟩ := build_eq_base env
    rw [hb]
    unfold _set_base_changes
    simp [_get_env, _validate_action, h1, h2, h3, pyTruthy_none, pyTruthy_some_empty]
  · intro h1 h2 h3 h4
    obtain ⟨sk0, hb⟩ := build_eq_base env
    rw [hb]
    unfold _set_base_changes
    simp [_get_env, _validate_action, h1, h2, h3, h4, pyTruthy_none, pyTruthy_some_empty]
  · intro h1 h2 h3 h4 h5 h6 h7
    obtain ⟨t, ht⟩ := h6
    obtain ⟨sk0, hb⟩ := build_eq_base env
    rw [hb]
    unfold _set_base_changes
    simp [_get_env, _validate_action, _validate_record_type,
      h1, h2, h3, h4, h5, ht, h7, pyTruthy_none, pyTruthy_some_empty]
  · intro submitRes sk h
    unfold _change_record_set
    simp [_get_env, h, pyTruthy]
  · intro m m2 hc
    exact Err.noConfusion hc

/-- Configuration with an invalid present action and the required name key
present but empty. -/
def envC10 : Env := fun k =>
  if k = "INPUT_AWS_ROUTE53_RR_ACTION" then some "FROB"
  else if k = "INPUT_AWS_ROUTE53_RR_NAME" then some ""
  else none

/-- C10 counterexample: a required key (the name) is present but empty, yet
the pipeline fails with the `InvalidInput` kind (`ValueError`) for the
invalid action processed first — not with the missing-configuration kind. -/
theorem C10_empty_required_counterexample :
    envC10 "INPUT_AWS_ROUTE53_RR_NAME" = some ""
    ∧ _build_record_set envC10 = .error (.ValueError
        "Unsupported action: FROB. Supported actions: CREATE, DELETE, UPSERT") :=
  ⟨rfl, rfl⟩

/-- Configuration whose action key is present with an empty value. -/
def envW10 : Env := fun k =>
  if k = "INPUT_AWS_ROUTE53_RR_ACTION" then some "" else none

/-- C10 witness: an empty action value yields the missing-configuration
kind, not a validation failure. -/
theorem C10_empty_required_witness :
    _build_record_set envW10 = .error (.NameError
      "Cannot find environment variable: INPUT_AWS_ROUTE53_RR_ACTION") :=
  (C10_empty_required envW10).1 rfl

end Route53
